import Mathlib

/-!
Verification of `StreamingCommunity/Util/_jsonConfig.py` (class `ConfigManager`).

The module is embedded shallowly:
* JSON values become the inductive `JValue` (JSON numbers appear as integers;
  no claim exercises fractional literals).
* Python dicts become association lists with Python's assignment semantics
  (overwrite in place, append when absent).
* `ConfigManager`'s mutable attributes become an explicit state record that
  every operation threads.
* Raised exceptions become `Except PyError`; `sys.exit` becomes `ProcOutcome.exit`.
* The two `requests.get` calls are external collaborators: each network-facing
  operation takes the HTTP outcome as an explicit argument (`HttpOutcome`).
* The backing file is an explicit `Option` value passed in and out of the
  file-facing operations; the `json` library's dump/parse pair is modelled by
  `storeToJValue` / `jValueToStore` on the parsed document.
-/

namespace SC

/-- JSON-representable values, as produced by `json.load` / `response.json()`. -/
inductive JValue where
  | null
  | bool (b : Bool)
  | num (n : Int)
  | str (s : String)
  | list (xs : List JValue)
  | obj (fields : List (String × JValue))
  deriving Repr

/-- A section of a config store: a Python dict from key to JSON value. -/
abbrev SectionMap := List (String × JValue)

/-- A config store: a Python dict from section name to section dict. -/
abbrev Store := List (String × SectionMap)

/-- Python dict lookup `d[k]` / `k in d` on an association list. -/
def alookup {α : Type} : List (String × α) → String → Option α
  | [], _ => none
  | (k, v) :: rest, key => if k = key then some v else alookup rest key

/-- Python dict assignment `d[k] = v`: overwrite in place, append when absent. -/
def ainsert {α : Type} : List (String × α) → String → α → List (String × α)
  | [], key, v => [(key, v)]
  | (k, w) :: rest, key, v =>
      if k = key then (key, v) :: rest else (k, w) :: ainsert rest key v

/-- The state held by a `ConfigManager` instance (`self.file_path`,
`self.config`, `self.configSite`, `self.cache`). -/
structure ConfigManager where
  file_path : String
  config : Store
  configSite : Store
  cache : List (String × JValue)
  deriving Repr

/-- Python exceptions that the module can raise. -/
inductive PyError where
  | valueError (msg : String)
  | typeError (msg : String)
  | attributeError (msg : String)
  deriving Repr

/-- The `data_type` argument of `read_key`: the Python type object passed in
(`int`, `bool`, `list`, `type(None)`, or any other type such as `str`,
`float`, `dict`, which all fall to the final `else`). -/
inductive DataType where
  | int | bool | float | str | list | dict | noneType
  deriving Repr

/-- Whether the process returned normally or called `sys.exit(code)`. -/
inductive ProcOutcome (α : Type) where
  | normal (a : α)
  | exit (code : Nat)
  deriving Repr

/-- Result of a blocking `requests.get`: a response with a status code and a
body of shape `β`, or a raised request exception. -/
inductive HttpOutcome (β : Type) where
  | response (status : Nat) (body : β)
  | exn (msg : String)
  deriving Repr

/-- Python `str.strip()` restricted to ASCII whitespace: drop leading and
trailing whitespace characters. -/
def pyStrip (s : String) : String :=
  String.mk (((s.data.dropWhile Char.isWhitespace).reverse.dropWhile
    Char.isWhitespace).reverse)

/-- Helper for `pySplitComma`: split a character list at every comma. -/
def splitCommaAux : List Char → List (List Char)
  | [] => [[]]
  | c :: cs =>
      match splitCommaAux cs with
      | [] => [[]]
      | g :: gs => if c = ',' then [] :: g :: gs else (c :: g) :: gs

/-- Python `value.split(',')`: split at every comma; the empty string yields
a single empty piece, matching `"".split(',') == ['']`. -/
def pySplitComma (s : String) : List String :=
  (splitCommaAux s.data).map (fun cs => String.mk cs)

/-- Value of a non-empty all-digit character list, `none` otherwise. -/
def digitsVal (cs : List Char) : Option Nat :=
  if cs = [] then none
  else if cs.all Char.isDigit then
    some (cs.foldl (fun acc c => acc * 10 + (c.toNat - 48)) 0)
  else none

/-- Python `int(s)` on a string: strip whitespace, optional sign, digits;
`none` when the literal is invalid (underscore digit grouping is not
modelled). -/
def pyParseIntStr (s : String) : Option Int :=
  match (pyStrip s).data with
  | '-' :: rest => (digitsVal rest).map (fun n => -(n : Int))
  | '+' :: rest => (digitsVal rest).map (fun n => (n : Int))
  | cs => (digitsVal cs).map (fun n => (n : Int))

/-- Python `int(value)` on a JSON value: integers pass through, booleans map
to 0/1, strings are parsed, anything else raises `TypeError`. -/
def pyIntOf : JValue → Except PyError Int
  | .num n => .ok n
  | .bool b => .ok (if b then 1 else 0)
  | .str s =>
      match pyParseIntStr s with
      | some n => .ok n
      | none => .error (.valueError ("invalid literal for int() with base 10: " ++ s))
  | .null => .error (.typeError "int() argument must not be NoneType")
  | .list _ => .error (.typeError "int() argument must not be list")
  | .obj _ => .error (.typeError "int() argument must not be dict")

/-- Python `bool(value)`: generic truthiness of a JSON value. -/
def pyTruthy : JValue → Bool
  | .null => false
  | .bool b => b
  | .num n => n != 0
  | .str s => s != ""
  | .list xs => !xs.isEmpty
  | .obj fields => !fields.isEmpty

/-- `ConfigManager._convert_to_data_type` (lines 139-158): dispatch on the
requested type; `int` parses, `bool` takes truthiness, `list` passes lists
through and comma-splits strings (non-strings lack `.split`, raising
`AttributeError`), `type(None)` yields `None`, everything else passes the raw
value through unchanged. -/
def convert_to_data_type (value : JValue) (data_type : DataType) :
    Except PyError JValue :=
  match data_type with
  | .int =>
      match pyIntOf value with
      | .ok n => .ok (.num n)
      | .error e => .error e
  | .bool => .ok (.bool (pyTruthy value))
  | .list =>
      match value with
      | .list xs => .ok (.list xs)
      | .str s => .ok (.list ((pySplitComma s).map (fun item => .str (pyStrip item))))
      | _ => .error (.attributeError "object has no attribute split")
  | .noneType => .ok .null
  | _ => .ok value

/-- The composite cache key `f"{'site' if from_site else 'config'}.{section}.{key}"`
built in `read_key` (line 121) and `set_key` (line 226). -/
def cache_key_of (from_site : Bool) (sec key : String) : String :=
  (if from_site then "site" else "config") ++ "." ++ sec ++ "." ++ key

/-- The `ValueError` message raised by `read_key` (line 132). -/
def key_not_found_msg (sec key : String) (from_site : Bool) : String :=
  "Key '" ++ key ++ "' not found in section '" ++ sec ++ "' of " ++
    (if from_site then "site" else "main") ++ " config"

/-- `ConfigManager.read_key` (lines 109-137): return the cached value on a
cache hit; otherwise look the key up in the selected store, raise `ValueError`
when the section or key is absent, convert, cache, and return. The pair
carries the exception-or-value outcome and the post-call state. -/
def read_key (m : ConfigManager) (sec key : String) (data_type : DataType)
    (from_site : Bool) : Except PyError JValue × ConfigManager :=
  match alookup m.cache (cache_key_of from_site sec key) with
  | some v => (.ok v, m)
  | none =>
      match alookup (if from_site then m.configSite else m.config) sec with
      | none => (.error (.valueError (key_not_found_msg sec key from_site)), m)
      | some sectionMap =>
          match alookup sectionMap key with
          | none => (.error (.valueError (key_not_found_msg sec key from_site)), m)
          | some raw =>
              match convert_to_data_type raw data_type with
              | .error e => (.error e, m)
              | .ok v =>
                  (.ok v,
                   { m with cache := ainsert m.cache (cache_key_of from_site sec key) v })

/-- `ConfigManager.get` (line 161): `read_key` with the default `str` type. -/
def get (m : ConfigManager) (sec key : String) :
    Except PyError JValue × ConfigManager :=
  read_key m sec key .str false

/-- `ConfigManager.get_int` (line 165). -/
def get_int (m : ConfigManager) (sec key : String) :
    Except PyError JValue × ConfigManager :=
  read_key m sec key .int false

/-- `ConfigManager.get_float` (line 169). -/
def get_float (m : ConfigManager) (sec key : String) :
    Except PyError JValue × ConfigManager :=
  read_key m sec key .float false

/-- `ConfigManager.get_bool` (line 173). -/
def get_bool (m : ConfigManager) (sec key : String) :
    Except PyError JValue × ConfigManager :=
  read_key m sec key .bool false

/-- `ConfigManager.get_list` (line 177). -/
def get_list (m : ConfigManager) (sec key : String) :
    Except PyError JValue × ConfigManager :=
  read_key m sec key .list false

/-- `ConfigManager.get_dict` (line 181). -/
def get_dict (m : ConfigManager) (sec key : String) :
    Except PyError JValue × ConfigManager :=
  read_key m sec key .dict false

/-- `ConfigManager.get_site` (line 186). -/
def get_site (m : ConfigManager) (sec key : String) :
    Except PyError JValue × ConfigManager :=
  read_key m sec key .str true

/-- `ConfigManager.get_site_int` (line 190). -/
def get_site_int (m : ConfigManager) (sec key : String) :
    Except PyError JValue × ConfigManager :=
  read_key m sec key .int true

/-- `ConfigManager.get_site_float` (line 194). -/
def get_site_float (m : ConfigManager) (sec key : String) :
    Except PyError JValue × ConfigManager :=
  read_key m sec key .float true

/-- `ConfigManager.get_site_bool` (line 198). -/
def get_site_bool (m : ConfigManager) (sec key : String) :
    Except PyError JValue × ConfigManager :=
  read_key m sec key .bool true

/-- `ConfigManager.get_site_list` (line 202). -/
def get_site_list (m : ConfigManager) (sec key : String) :
    Except PyError JValue × ConfigManager :=
  read_key m sec key .list true

/-- `ConfigManager.get_site_dict` (line 206). -/
def get_site_dict (m : ConfigManager) (sec key : String) :
    Except PyError JValue × ConfigManager :=
  read_key m sec key .dict true

/-- `ConfigManager.set_key` (lines 210-230): create the section dict when
absent, assign `value` under `key` inside it, and eagerly cache the raw value
under the composite key. The `try/except` wrapper never fires here: plain
dict assignments cannot raise. -/
def set_key (m : ConfigManager) (sec key : String) (value : JValue)
    (to_site : Bool) : ConfigManager :=
  let target0 := if to_site then m.configSite else m.config
  let target1 := if (alookup target0 sec).isSome then target0
                 else ainsert target0 sec []
  let sectionMap := (alookup target1 sec).getD []
  let target2 := ainsert target1 sec (ainsert sectionMap key value)
  let cache2 := ainsert m.cache (cache_key_of to_site sec key) value
  if to_site then { m with configSite := target2, cache := cache2 }
  else { m with config := target2, cache := cache2 }

/-- The JSON document that `json.dump(self.config, f, indent=4)` serializes:
a top-level object whose field values are the section objects. The on-disk
text is identified with its parsed document; `json.dump`/`json.load` form the
external round-trip between them. -/
def storeToJValue (s : Store) : JValue :=
  .obj (s.map (fun p => (p.1, JValue.obj p.2)))

/-- Decode the fields of a top-level JSON object back into a `Store`; `none`
when some section value is not an object. -/
def decodeSections : List (String × JValue) → Option Store
  | [] => some []
  | (k, .obj sm) :: rest => (decodeSections rest).map (fun s => (k, sm) :: s)
  | _ => none

/-- Read a parsed JSON document as a config store (`none` when the document
is not an object of objects, a shape `write_config` never produces). -/
def jValueToStore : JValue → Option Store
  | .obj fields => decodeSections fields
  | _ => none

/-- `ConfigManager.write_config` (lines 232-238): serialize `self.config` to
the file at `self.file_path`, overwriting any previous content, touching no
in-memory state. Returns the unchanged manager and the new file content. -/
def write_config (m : ConfigManager) (_disk : Option JValue) :
    ConfigManager × Option JValue :=
  (m, some (storeToJValue m.config))

/-- The existing-file branch of `ConfigManager.read_config` (lines 43-46):
`self.config = json.load(f)`. A document that is not an object of objects is
outside the `Store` representation and leaves `config` in place (the real
code would assign the raw document; no claim exercises that shape). -/
def read_config_existing (m : ConfigManager) (doc : JValue) : ConfigManager :=
  { m with config := (jValueToStore doc).getD m.config }

/-- `ConfigManager.update_site_config` (lines 93-107): on HTTP 200 replace
`self.configSite` with the parsed body; on any other status print and keep
the store; on a raised exception (including a `.json()` parse failure, body
`none`) print and keep the store. Always returns normally. -/
def update_site_config (m : ConfigManager) (r : HttpOutcome (Option Store)) :
    ProcOutcome ConfigManager :=
  match r with
  | .response status body =>
      if status = 200 then
        match body with
        | some siteData => .normal { m with configSite := siteData }
        | none => .normal m
      else .normal m
  | .exn _ => .normal m

/-- `ConfigManager.download_requirements` (lines 68-91): on HTTP 200 write
`response.content` to the destination file and return; on any other status or
a raised exception log and call `sys.exit(0)`, leaving the file untouched.
The pair carries the process outcome and the destination file content. -/
def download_requirements (disk : Option String) (r : HttpOutcome String) :
    ProcOutcome Unit × Option String :=
  match r with
  | .response status body =>
      if status = 200 then (.normal (), some body)
      else (.exit 0, disk)
  | .exn _ => (.exit 0, disk)

/-! ### Association-list lemmas shared by the claim proofs -/

theorem alookup_ainsert_self {α : Type} (l : List (String × α)) (k : String)
    (v : α) : alookup (ainsert l k v) k = some v := by
  induction l with
  | nil => simp [ainsert, alookup]
  | cons p rest ih =>
      obtain ⟨k', w⟩ := p
      by_cases h : k' = k
      · simp [ainsert, alookup, h]
      · simp [ainsert, alookup, h, ih]

/-- A cache hit returns the cached value with the state untouched. -/
theorem read_key_of_cache_hit (m : ConfigManager) (sec key : String)
    (dt : DataType) (fs : Bool) (v : JValue)
    (h : alookup m.cache (cache_key_of fs sec key) = some v) :
    read_key m sec key dt fs = (.ok v, m) := by
  simp [read_key, h]

theorem decodeSections_map (s : Store) :
    decodeSections (s.map (fun p => (p.1, JValue.obj p.2))) = some s := by
  induction s with
  | nil => simp [decodeSections]
  | cons p rest ih =>
      obtain ⟨k, sm⟩ := p
      simp [decodeSections, ih]

/-- Round trip of the external dump/parse pair on store-shaped documents. -/
theorem jValueToStore_storeToJValue (s : Store) :
    jValueToStore (storeToJValue s) = some s := by
  simp [jValueToStore, storeToJValue, decodeSections_map]

/-! ### Claims -/

/-- C1: whenever the composite cache key built from the origin, section and
key is present in the cache, `read_key` returns the cached value with the
manager state unchanged, for every requested data type — no store lookup and
no type conversion takes place, so the first cached conversion wins for later
calls on the same composite key. -/
theorem C1_cache_hit_returns_cached (m : ConfigManager) (sec key : String)
    (dt : DataType) (fs : Bool) (v : JValue)
    (h : alookup m.cache (cache_key_of fs sec key) = some v) :
    read_key m sec key dt fs = (.ok v, m) :=
  read_key_of_cache_hit m sec key dt fs v h

theorem C1_cache_hit_returns_cached_witness :
    read_key ⟨"p", [], [], [("config.A.B", .str "seven")]⟩ "A" "B" .int false
      = (.ok (.str "seven"), ⟨"p", [], [], [("config.A.B", .str "seven")]⟩) :=
  C1_cache_hit_returns_cached _ "A" "B" .int false (.str "seven") rfl

/-- C2: on a cache miss where the section is absent from the selected store,
or the key is absent from that section, `read_key` raises the key-not-found
`ValueError` to the caller and the whole manager state — both config stores
included — is unchanged. -/
theorem C2_missing_key_raises (m : ConfigManager) (sec key : String)
    (dt : DataType) (fs : Bool)
    (hc : alookup m.cache (cache_key_of fs sec key) = none)
    (hm : alookup (if fs then m.configSite else m.config) sec = none
      ∨ ∃ sm, alookup (if fs then m.configSite else m.config) sec = some sm
          ∧ alookup sm key = none) :
    read_key m sec key dt fs
      = (.error (.valueError (key_not_found_msg sec key fs)), m) := by
  rcases hm with h | ⟨sm, h1, h2⟩
  · simp [read_key, hc, h]
  · simp [read_key, hc, h1, h2]

theorem C2_missing_key_raises_witness :
    read_key ⟨"p", [], [], []⟩ "A" "B" .str false
      = (.error (.valueError (key_not_found_msg "A" "B" false)), ⟨"p", [], [], []⟩) :=
  C2_missing_key_raises _ "A" "B" .str false rfl (Or.inl rfl)

/-- C3: `set_key` stores the value at `config[section][key]`, creating the
section when absent, eagerly caches the same unconverted value under the
composite key, and a subsequent `get` answers from the cache with exactly
that value and no state change — the backing file plays no part in either
call. -/
theorem C3_set_key_then_get (m : ConfigManager) (sec key : String)
    (value : JValue) :
    (∃ sm, alookup (set_key m sec key value false).config sec = some sm
      ∧ alookup sm key = some value)
    ∧ alookup (set_key m sec key value false).cache (cache_key_of false sec key)
        = some value
    ∧ get (set_key m sec key value false) sec key
        = (.ok value, set_key m sec key value false) := by
  have hdef : set_key m sec key value false
      = { m with
          config := ainsert
            (if (alookup m.config sec).isSome then m.config
             else ainsert m.config sec [])
            sec
            (ainsert
              ((alookup
                 (if (alookup m.config sec).isSome then m.config
                  else ainsert m.config sec []) sec).getD [])
              key value),
          cache := ainsert m.cache (cache_key_of false sec key) value } := rfl
  have hcache : alookup (set_key m sec key value false).cache
      (cache_key_of false sec key) = some value := by
    rw [hdef]
    exact alookup_ainsert_self _ _ _
  refine ⟨⟨ainsert
      ((alookup
         (if (alookup m.config sec).isSome then m.config
          else ainsert m.config sec []) sec).getD []) key value, ?_, ?_⟩,
    hcache, read_key_of_cache_hit _ _ _ _ _ _ hcache⟩
  · rw [hdef]
    exact alookup_ainsert_self _ _ _
  · exact alookup_ainsert_self _ _ _

/-- C4: on a cache miss, `get_bool` and `get_site_bool` return the truthiness
coercion of the raw value — any non-empty string (the string false literal
included), non-zero number, or non-empty container is true; the empty string,
zero, an empty container, or null is false. -/
theorem C4_bool_truthiness (sec key : String) (raw : JValue) :
    (get_bool ⟨"", [(sec, [(key, raw)])], [], []⟩ sec key).1
      = .ok (.bool (pyTruthy raw))
    ∧ (get_site_bool ⟨"", [], [(sec, [(key, raw)])], []⟩ sec key).1
      = .ok (.bool (pyTruthy raw))
    ∧ pyTruthy (.str "false") = true
    ∧ (∀ s : String, (pyTruthy (.str s) = true ↔ s ≠ ""))
    ∧ (∀ n : Int, (pyTruthy (.num n) = true ↔ n ≠ 0))
    ∧ (∀ xs : List JValue, (pyTruthy (.list xs) = true ↔ xs ≠ []))
    ∧ (∀ fields : List (String × JValue),
        (pyTruthy (.obj fields) = true ↔ fields ≠ []))
    ∧ pyTruthy .null = false := by
  refine ⟨?_, ?_, rfl, ?_, ?_, ?_, ?_, rfl⟩
  · simp [get_bool, read_key, alookup, convert_to_data_type, cache_key_of]
  · simp [get_site_bool, read_key, alookup, convert_to_data_type, cache_key_of]
  · intro s; simp [pyTruthy]
  · intro n; simp [pyTruthy]
  · intro xs; simp [pyTruthy]
  · intro fields; simp [pyTruthy]

/-- C5: on a cache miss, `get_list` passes an already-list raw value through
unchanged, and splits a string raw value on commas with surrounding
whitespace trimmed from each piece; in particular the string a-comma-space-b
-comma-c yields the three strings a, b, c in order. -/
theorem C5_list_conversion (sec key : String) :
    (∀ xs : List JValue,
      (get_list ⟨"", [(sec, [(key, .list xs)])], [], []⟩ sec key).1
        = .ok (.list xs))
    ∧ (∀ s : String,
      (get_list ⟨"", [(sec, [(key, .str s)])], [], []⟩ sec key).1
        = .ok (.list ((pySplitComma s).map (fun item => .str (pyStrip item)))))
    ∧ (get_list ⟨"", [(sec, [(key, .str "a, b,c")])], [], []⟩ sec key).1
        = .ok (.list [.str "a", .str "b", .str "c"]) := by
  refine ⟨?_, ?_, ?_⟩
  · intro xs
    simp [get_list, read_key, alookup, convert_to_data_type, cache_key_of]
  · intro s
    simp [get_list, read_key, alookup, convert_to_data_type, cache_key_of]
  · simp [get_list, read_key, alookup, convert_to_data_type, cache_key_of]
    rfl

/-- C6: on a cache miss, `get_int` performs a numeric parse of a string raw
value: a numeric string returns the parsed integer and a non-numeric string
raises a ValueError; the strings 42 and abc are concrete instances of each
side. -/
theorem C6_int_parse (sec key : String) :
    (∀ (s : String) (n : Int), pyParseIntStr s = some n →
      (get_int ⟨"", [(sec, [(key, .str s)])], [], []⟩ sec key).1 = .ok (.num n))
    ∧ (∀ s : String, pyParseIntStr s = none →
      (get_int ⟨"", [(sec, [(key, .str s)])], [], []⟩ sec key).1
        = .error (.valueError ("invalid literal for int() with base 10: " ++ s)))
    ∧ pyParseIntStr "42" = some 42
    ∧ pyParseIntStr "abc" = none := by
  refine ⟨?_, ?_, rfl, rfl⟩
  · intro s n h
    simp [get_int, read_key, alookup, convert_to_data_type, pyIntOf, h,
      cache_key_of]
  · intro s h
    simp [get_int, read_key, alookup, convert_to_data_type, pyIntOf, h,
      cache_key_of]

theorem C6_int_parse_witness :
    (get_int ⟨"", [("A", [("B", .str "42")])], [], []⟩ "A" "B").1
      = .ok (.num 42) :=
  (C6_int_parse "A" "B").1 "42" 42 rfl

/-- C7: a requested type of float, mapping, or the plain default passes the
raw value through the conversion unchanged, so `get_float` and
`get_site_float` on a cache miss return the raw JSON value as is. -/
theorem C7_float_passthrough (raw : JValue) (sec key : String) :
    convert_to_data_type raw .float = .ok raw
    ∧ convert_to_data_type raw .dict = .ok raw
    ∧ convert_to_data_type raw .str = .ok raw
    ∧ (get_float ⟨"", [(sec, [(key, raw)])], [], []⟩ sec key).1 = .ok raw
    ∧ (get_site_float ⟨"", [], [(sec, [(key, raw)])], []⟩ sec key).1 = .ok raw := by
  refine ⟨rfl, rfl, rfl, ?_, ?_⟩
  · simp [get_float, read_key, alookup, convert_to_data_type, cache_key_of]
  · simp [get_site_float, read_key, alookup, convert_to_data_type, cache_key_of]

/-- C8: `write_config` serializes exactly the main store to the file and
leaves the manager — the site store included — untouched; a fresh load of the
written document reproduces the main store contents exactly. -/
theorem C8_write_roundtrip (m : ConfigManager) (disk : Option JValue)
    (m0 : ConfigManager) :
    (write_config m disk).1 = m
    ∧ (write_config m disk).2 = some (storeToJValue m.config)
    ∧ (read_config_existing m0 (storeToJValue m.config)).config = m.config
    ∧ (read_config_existing m0 (storeToJValue m.config)).configSite
        = m0.configSite := by
  refine ⟨rfl, rfl, ?_, rfl⟩
  simp [read_config_existing, jValueToStore_storeToJValue]

/-- C9: the site-config fetch replaces the whole site store only on an HTTP
200 response with a parseable body; every other status, a body parse failure,
or a raised exception leaves the site store (and the rest of the manager)
untouched, and the call always returns normally — it never terminates the
process. -/
theorem C9_site_fetch_nonfatal (m : ConfigManager)
    (r : HttpOutcome (Option Store)) :
    (∀ body, update_site_config m (.response 200 (some body))
        = .normal { m with configSite := body })
    ∧ (∀ (st : Nat) (body : Option Store), st ≠ 200 →
        update_site_config m (.response st body) = .normal m)
    ∧ (∀ e, update_site_config m (.exn e) = .normal m)
    ∧ update_site_config m (.response 200 none) = .normal m
    ∧ (∃ m2, update_site_config m r = .normal m2) := by
  refine ⟨fun body => rfl, ?_, fun e => rfl, rfl, ?_⟩
  · intro st body h
    simp [update_site_config, h]
  · cases r with
    | response st body =>
        by_cases h : st = 200
        · subst h
          cases body with
          | none => exact ⟨m, rfl⟩
          | some siteData => exact ⟨{ m with configSite := siteData }, rfl⟩
        · exact ⟨m, by simp [update_site_config, h]⟩
    | exn e => exact ⟨m, rfl⟩

theorem C9_site_fetch_nonfatal_witness :
    update_site_config ⟨"", [], [], []⟩ (.response 404 (some [("S", [])]))
      = .normal ⟨"", [], [], []⟩ :=
  (C9_site_fetch_nonfatal ⟨"", [], [], []⟩
    (.response 404 (some [("S", [])]))).2.1 404 (some [("S", [])]) (by decide)

/-- C10: the default-config download writes the raw response body to the
destination file and returns normally only on HTTP 200; any other status or a
raised request exception ends the process via exit code 0 with the file left
untouched. -/
theorem C10_download_fatal_on_failure (disk : Option String) :
    (∀ body, download_requirements disk (.response 200 body)
        = (.normal (), some body))
    ∧ (∀ (st : Nat) (body : String), st ≠ 200 →
        download_requirements disk (.response st body) = (.exit 0, disk))
    ∧ (∀ e, download_requirements disk (.exn e) = (.exit 0, disk)) := by
  refine ⟨fun body => rfl, ?_, fun e => rfl⟩
  intro st body h
  simp [download_requirements, h]

theorem C10_download_fatal_on_failure_witness :
    download_requirements (some "old") (.response 404 "not found")
      = (.exit 0, some "old") :=
  (C10_download_fatal_on_failure (some "old")).2.1 404 "not found" (by decide)

end SC
